import Mathlib

/-!
# Verification of the SQL Data Analyst app orchestration

Shallow embedding of `apps/data_visualization_agent-app/app.py`.

The app processes one chat question at a time (lines 182-262 of the source):
it records the question, runs the SQL agent, and on success with a non-empty
SQL string it stores the result dataframe in `st.session_state.dataframes`,
appends transcript messages, and invokes the visualization agent.  Rendering
(`display_chat_history`, lines 143-150) re-interprets any message containing
the substring `DATAFRAME_INDEX:` as a dataframe reference.

The two external agents (SQL and visualization) are opaque services; their
outcomes are inputs to the embedding (`SqlOutcome`, `VizOutcome`).  The body
of the handler is embedded as a list of primitive actions (`Act`) in exact
program order, so that ordering claims ("stored before referenced") are
about the trace, and state claims are about folding the trace.
-/

/-- A dataframe, abstracted as a list of rows (`response_df` in the source).
Only emptiness and identity of the payload matter to the orchestration. -/
abbrev DataFrame := List (List String)

/-- An opaque plotly chart payload (`plotly_graph` in the source). -/
abbrev Chart := String

/-- Message roles used by `StreamlitChatMessageHistory`
(`add_user_message` produces a human message, `add_ai_message` an ai one). -/
inductive Role where
  | human
  | ai
deriving DecidableEq, Repr

/-- One transcript entry: `msg.type` and `msg.content` in the source. -/
structure Msg where
  role : Role
  content : String
deriving DecidableEq, Repr

/-- The session state the handler mutates: `msgs.messages`
(the `StreamlitChatMessageHistory`) and `st.session_state.dataframes`. -/
structure AppState where
  messages : List Msg
  dataframes : List DataFrame
deriving DecidableEq, Repr

/-- Session state right after setup (lines 134-140): one greeting ai
message, no stored dataframes. -/
def initState : AppState :=
  { messages := [⟨Role.ai, "How can I help you?"⟩], dataframes := [] }

/-- Outcome of the SQL step (`handle_question` / `asyncio.run`, line 201,
followed by `get_sql_query_code` / `get_data_sql`, lines 219-220): either an
exception with message `e`, or a SQL string and a result dataframe. -/
inductive SqlOutcome where
  | failure (e : String)
  | success (sql : String) (df : DataFrame)
deriving DecidableEq, Repr

/-- Outcome of the visualization step (lines 240-246): an exception with
message `e`, or `get_plotly_graph()` returning a truthy chart (`some`) or a
falsy value (`none`). -/
inductive VizOutcome where
  | failure (e : String)
  | success (graph : Option Chart)
deriving DecidableEq, Repr

/-- Primitive effects of the handler, in source order: transcript appends
(`msgs.add_user_message` / `msgs.add_ai_message`), the dataframe store append
(`st.session_state.dataframes.append`), UI writes (`st.chat_message(...)`,
`st.dataframe`, `st.plotly_chart`, `st.error`), and the call to
`data_visualization_agent.invoke_agent`. -/
inductive Act where
  | addUserMsg (s : String)
  | addAiMsg (s : String)
  | storeDF (df : DataFrame)
  | uiChatHuman (s : String)
  | uiChatAI (s : String)
  | uiDataframe (df : DataFrame)
  | uiPlotly (c : Chart)
  | uiError (s : String)
  | invokeViz
deriving DecidableEq, Repr

/-- The marker substring used to link a transcript message to a stored
dataframe (lines 146-147 and 232). -/
def dfMarker : String := "DATAFRAME_INDEX:"

/-- Content of the table-reference message appended at line 232:
`f"DATAFRAME_INDEX:{df_index}"`. -/
def dfRefContent (i : Nat) : String := dfMarker ++ toString i

/-- `response_1` at line 224. -/
def sqlResultsText (sql : String) : String :=
  "### SQL Results:\n\nSQL Query:\n\n```sql\n" ++ sql ++ "\n```\n\nResult:"

/-- `response_text` at lines 207-211 (a triple-quoted f-string; the 12-space
indentation and blank line are part of the literal). -/
def errorResponseText (e : String) : String :=
  "\n            I'm sorry. I am having difficulty answering that question. You can try providing more details and I'll do my best to provide an answer.\n            \n            Error: " ++ e ++ "\n            "

/-- `viz_response` at line 256. -/
def vizResponse : String := "### Visualization created based on the data"

/-- The action trace of processing one question (lines 188-262), given the
current dataframe count `k` (so `df_index = k` at line 227), the SQL step
outcome and the visualization step outcome.  Order follows the source:
human UI write then `add_user_message` (190-191); on SQL failure the error
message is appended, written, and `st.error` shown (212-214); on success,
if `sql_query` is truthy (222) the dataframe is appended (228), the two ai
messages added (231-232), the UI written (235-236), the visualization agent
invoked (240), and then the viz outcome handled (246-262). -/
def questionTrace (k : Nat) (question : String) (r : SqlOutcome) (v : VizOutcome) :
    List Act :=
  [Act.uiChatHuman question, Act.addUserMsg question] ++
  match r with
  | SqlOutcome.failure e =>
      [Act.addAiMsg (errorResponseText e), Act.uiChatAI (errorResponseText e),
       Act.uiError ("Error: " ++ e)]
  | SqlOutcome.success sql df =>
      if sql = "" then []
      else
        [Act.storeDF df, Act.addAiMsg (sqlResultsText sql),
         Act.addAiMsg (dfRefContent k), Act.uiChatAI (sqlResultsText sql),
         Act.uiDataframe df, Act.invokeViz] ++
        match v with
        | VizOutcome.failure e =>
            [Act.uiError ("Failed to create visualization: " ++ e)]
        | VizOutcome.success none => []
        | VizOutcome.success (some g) =>
            [Act.uiPlotly g, Act.addAiMsg vizResponse, Act.uiChatAI vizResponse]

/-- Effect of one action on the session state.  UI actions and the
visualization invocation do not touch the state. -/
def applyAct (s : AppState) (a : Act) : AppState :=
  match a with
  | Act.addUserMsg t => { s with messages := s.messages ++ [⟨Role.human, t⟩] }
  | Act.addAiMsg t => { s with messages := s.messages ++ [⟨Role.ai, t⟩] }
  | Act.storeDF df => { s with dataframes := s.dataframes ++ [df] }
  | _ => s

/-- Fold a trace over the state. -/
def runTrace (s : AppState) (t : List Act) : AppState :=
  t.foldl applyAct s

/-- The assistant messages appended by a trace, in order. -/
def aiMessages (t : List Act) : List String :=
  t.filterMap fun a =>
    match a with
    | Act.addAiMsg m => some m
    | _ => none

/-- The dataframes stored by a trace, in order. -/
def storedDFs (t : List Act) : List DataFrame :=
  t.filterMap fun a =>
    match a with
    | Act.storeDF df => some df
    | _ => none

/-- The store indices assigned along a trace when the store already holds
`k` dataframes: each `storeDF` is assigned the current length of the store
(`df_index = len(st.session_state.dataframes)`, line 227). -/
def storeIndices (k : Nat) : List Act → List Nat
  | [] => []
  | Act.storeDF _ :: rest => k :: storeIndices (k + 1) rest
  | _ :: rest => storeIndices k rest

/-- Processing a whole session: each question sees the dataframe count
produced by the previous ones.  Returns the final state and the
concatenated trace. -/
def sessionRun (s : AppState) :
    List (String × SqlOutcome × VizOutcome) → AppState × List Act
  | [] => (s, [])
  | (q, r, v) :: rest =>
      let t := questionTrace s.dataframes.length q r v
      let out := sessionRun (runTrace s t) rest
      (out.1, t ++ out.2)

/-! ## Rendering (`display_chat_history`, lines 143-150) -/

/-- What one rendering iteration shows inside `st.chat_message(msg.type)`:
either `st.dataframe(...)` of a stored dataframe, or `st.write(msg.content)`. -/
inductive Rendered where
  | shownDF (role : Role) (df : DataFrame)
  | shownText (role : Role) (s : String)
deriving DecidableEq, Repr

/-- Models the Python builtin `int(s)` on the string arguments occurring at
line 147: surrounding whitespace is stripped, an optional single sign is
allowed, and the remainder must be a non-empty run of decimal digits
(digit-grouping underscores and non-ASCII digits are not modelled).
`none` models `int` raising `ValueError`. -/
def pyInt (s : String) : Option Int :=
  let cs := ((s.toList.dropWhile Char.isWhitespace).reverse.dropWhile
      Char.isWhitespace).reverse
  match cs with
  | [] => none
  | c :: rest =>
      let signed : Bool × List Char :=
        if c = '-' then (true, rest)
        else if c = '+' then (false, rest)
        else (false, c :: rest)
      if !signed.2.isEmpty && signed.2.all Char.isDigit then
        let n : Nat := signed.2.foldl (fun acc d => 10 * acc + (d.toNat - 48)) 0
        some (if signed.1 then -(n : Int) else (n : Int))
      else none

/-- Models Python list indexing `xs[i]`: a negative index counts from the
end; `none` models `IndexError`. -/
def pyIndex (xs : List DataFrame) (i : Int) : Option DataFrame :=
  if 0 ≤ i then xs.get? i.toNat
  else if 0 ≤ (xs.length : Int) + i then xs.get? ((xs.length : Int) + i).toNat
  else none

/-- Splitting worker for `pySplit`: scans left to right; where `sep` is a
prefix, cuts and skips it, otherwise advances one character.  `fuel` only
makes the recursion structural; it is always sufficient at the call site. -/
def pySplitAux (sep : List Char) : Nat → List Char → List Char → List (List Char)
  | _, cur, [] => [cur.reverse]
  | 0, cur, cs => [cur.reverse ++ cs]
  | Nat.succ fuel, cur, c :: cs =>
      if sep.isPrefixOf (c :: cs) then
        cur.reverse :: pySplitAux sep fuel [] (List.drop sep.length (c :: cs))
      else pySplitAux sep fuel (c :: cur) cs

/-- Models Python `s.split(sep)` for a non-empty separator: the pieces
between consecutive non-overlapping occurrences of `sep`, found left to
right. -/
def pySplit (s sep : String) : List String :=
  (pySplitAux sep.toList (s.toList.length + 1) [] s.toList).map List.asString

/-- One iteration of the rendering loop (lines 145-150).  Python's
`sep in content` holds exactly when `content.split(sep)` has at least two
parts, and `split(sep)[1]` is the text between the first occurrence of the
marker and the next one (or the end).  `none` models an uncaught exception
(`ValueError` from `int` or `IndexError` from the list index). -/
def renderTurn (dfs : List DataFrame) (m : Msg) : Option Rendered :=
  let parts := pySplit m.content dfMarker
  if 2 ≤ parts.length then
    match pyInt (parts.getD 1 "") with
    | none => none
    | some i =>
        match pyIndex dfs i with
        | none => none
        | some df => some (Rendered.shownDF m.role df)
  else some (Rendered.shownText m.role m.content)

/-- The rendering loop over the whole history (lines 144-150); `none` when
some iteration raises, aborting the render. -/
def display_chat_history (dfs : List DataFrame) : List Msg → Option (List Rendered)
  | [] => some []
  | m :: rest =>
      match renderTurn dfs m with
      | none => none
      | some r => (display_chat_history dfs rest).map (fun l => r :: l)

/-! ## Helper lemmas -/

theorem runTrace_append (s : AppState) (t1 t2 : List Act) :
    runTrace s (t1 ++ t2) = runTrace (runTrace s t1) t2 :=
  List.foldl_append ..

theorem runTrace_dataframes (s : AppState) (t : List Act) :
    (runTrace s t).dataframes = s.dataframes ++ storedDFs t := by
  induction t generalizing s with
  | nil => simp [runTrace, storedDFs]
  | cons a rest ih =>
      cases a <;>
        simp [runTrace, storedDFs, applyAct, List.filterMap_cons] at ih ⊢ <;>
        simp [List.foldl_cons, ih, applyAct]

theorem storeIndices_eq_range' : ∀ (t : List Act) (k : Nat),
    storeIndices k t = List.range' k (storedDFs t).length
  | [], _ => rfl
  | a :: rest, k => by
      cases a <;>
        simp [storeIndices, storedDFs, List.filterMap_cons, List.range'_succ,
          storeIndices_eq_range' rest]

theorem sessionRun_fst (qs : List (String × SqlOutcome × VizOutcome)) :
    ∀ s : AppState, (sessionRun s qs).1 = runTrace s (sessionRun s qs).2 := by
  induction qs with
  | nil => intro s; simp [sessionRun, runTrace]
  | cons x rest ih =>
      intro s
      obtain ⟨q, r, v⟩ := x
      simp [sessionRun, runTrace_append, ih]

/-! ## Claim theorems -/

/-- C1 (counterexample): when the SQL step succeeds with an *empty* table
(`[]`, zero rows) and a non-empty SQL string, the visualization agent IS
invoked — the guard at line 222 checks only `sql_query`, never the table. -/
theorem viz_invoked_on_empty_table_cex :
    Act.invokeViz ∈
      questionTrace 0 "How many?" (SqlOutcome.success "SELECT 1" [])
        (VizOutcome.success none) := by
  decide

/-- C1 (amended): the visualization step is invoked exactly when the SQL
step succeeds with a non-empty SQL string; the table's emptiness is not
consulted. -/
theorem viz_invoked_iff_sql_nonempty (k : Nat) (q : String) (r : SqlOutcome)
    (v : VizOutcome) :
    Act.invokeViz ∈ questionTrace k q r v ↔
      ∃ sql df, r = SqlOutcome.success sql df ∧ sql ≠ "" := by
  cases r with
  | failure e => simp [questionTrace]
  | success sql df =>
      by_cases hs : sql = ""
      · subst hs
        simp [questionTrace]
      · constructor
        · intro _
          exact ⟨sql, df, rfl, hs⟩
        · intro _
          cases v with
          | failure e => simp [questionTrace, hs]
          | success g => cases g <;> simp [questionTrace, hs]

/-- C4 (counterexample): a successful SQL step whose SQL string is empty
appends *no* assistant turns at all (and stores nothing): the whole result
block is behind `if sql_query:` (line 222).  The claim required two turns
regardless of emptiness. -/
theorem empty_sql_appends_nothing_cex :
    questionTrace 0 "q" (SqlOutcome.success "" [["1"]])
        (VizOutcome.success none) =
      [Act.uiChatHuman "q", Act.addUserMsg "q"] := rfl

/-- C4 (amended): on a successful SQL step, if the SQL string is non-empty
the first two assistant turns appended are the SQL text and the
table-artifact reference, and the dataframe is stored; if the SQL string is
empty, no assistant turn is appended and nothing is stored. -/
theorem sql_success_turns (k : Nat) (q sql : String) (df : DataFrame)
    (v : VizOutcome) :
    (sql ≠ "" →
      (aiMessages (questionTrace k q (SqlOutcome.success sql df) v)).take 2 =
          [sqlResultsText sql, dfRefContent k] ∧
        Act.storeDF df ∈ questionTrace k q (SqlOutcome.success sql df) v) ∧
    (sql = "" →
      aiMessages (questionTrace k q (SqlOutcome.success sql df) v) = [] ∧
        storedDFs (questionTrace k q (SqlOutcome.success sql df) v) = []) := by
  constructor
  · intro hs
    cases v with
    | failure e => simp [questionTrace, hs, aiMessages]
    | success g => cases g <;> simp [questionTrace, hs, aiMessages]
  · intro hs
    subst hs
    simp [questionTrace, aiMessages, storedDFs]

/-- C4 (witness for `sql_success_turns`). -/
theorem sql_success_turns_w :
    (aiMessages (questionTrace 0 "q" (SqlOutcome.success "SELECT 1" [["1"]])
          (VizOutcome.success none))).take 2 =
        [sqlResultsText "SELECT 1", dfRefContent 0] ∧
      Act.storeDF [["1"]] ∈
        questionTrace 0 "q" (SqlOutcome.success "SELECT 1" [["1"]])
          (VizOutcome.success none) :=
  (sql_success_turns 0 "q" "SELECT 1" [["1"]] (VizOutcome.success none)).1
    (by decide)

/-- C5: when the SQL step fails, the visualization agent is never invoked,
exactly one assistant turn (the error message embedding the cause) is
appended, and the dataframe store is unchanged (lines 203-214; the result
block is skipped via `error_occured`). -/
theorem sql_failure_isolated (s : AppState) (q e : String) (v : VizOutcome) :
    Act.invokeViz ∉ questionTrace s.dataframes.length q (SqlOutcome.failure e) v ∧
      aiMessages (questionTrace s.dataframes.length q (SqlOutcome.failure e) v) =
        [errorResponseText e] ∧
      (runTrace s
          (questionTrace s.dataframes.length q (SqlOutcome.failure e) v)).dataframes =
        s.dataframes := by
  refine ⟨?_, ?_, ?_⟩
  · simp [questionTrace]
  · simp [questionTrace, aiMessages]
  · simp [questionTrace, runTrace, applyAct]

/-- C5 (witness for `sql_failure_isolated`). -/
theorem sql_failure_isolated_w :
    Act.invokeViz ∉
        questionTrace 0 "q" (SqlOutcome.failure "boom") (VizOutcome.success none) ∧
      aiMessages
          (questionTrace 0 "q" (SqlOutcome.failure "boom") (VizOutcome.success none)) =
        [errorResponseText "boom"] ∧
      (runTrace initState
          (questionTrace 0 "q" (SqlOutcome.failure "boom")
            (VizOutcome.success none))).dataframes = [] :=
  sql_failure_isolated initState "q" "boom" (VizOutcome.success none)

/-- C2 (counterexample): when both the SQL and the visualization step
succeed (with a truthy chart), exactly *three* assistant turns are appended
— SQL text, table reference, confirmation — not four: no chart-reference
turn exists anywhere in the handler (lines 251-258 only display the chart
and append the literal confirmation). -/
theorem four_ai_turns_cex :
    aiMessages
        (questionTrace 0 "q" (SqlOutcome.success "SELECT 1" [["1"]])
          (VizOutcome.success (some "chart"))) =
      [sqlResultsText "SELECT 1", dfRefContent 0, vizResponse] ∧
    (aiMessages
        (questionTrace 0 "q" (SqlOutcome.success "SELECT 1" [["1"]])
          (VizOutcome.success (some "chart")))).length ≠ 4 := by
  constructor
  · rfl
  · decide

/-- C2 (amended): when the SQL step succeeds with a non-empty SQL string
and the visualization step succeeds with a truthy chart, exactly three
assistant turns are appended, in order: the SQL text, the table-artifact
reference, and the literal confirmation text. -/
theorem three_ai_turns_on_full_success (k : Nat) (q sql : String)
    (df : DataFrame) (g : Chart) (h : sql ≠ "") :
    aiMessages
        (questionTrace k q (SqlOutcome.success sql df)
          (VizOutcome.success (some g))) =
      [sqlResultsText sql, dfRefContent k, vizResponse] := by
  simp [questionTrace, h, aiMessages]

/-- C2 (witness for `three_ai_turns_on_full_success`). -/
theorem three_ai_turns_on_full_success_w :
    aiMessages
        (questionTrace 2 "q" (SqlOutcome.success "SELECT *" [["a"]])
          (VizOutcome.success (some "fig"))) =
      [sqlResultsText "SELECT *", dfRefContent 2, vizResponse] :=
  three_ai_turns_on_full_success 2 "q" "SELECT *" [["a"]] "fig" (by decide)

/-- C3 (counterexample): the produced chart is *not* stored anywhere in the
session state — running the very same question with two different charts
yields identical final states (the chart is only passed to
`st.plotly_chart`, line 253; there is no chart store in the app, only
`st.session_state.dataframes`). -/
theorem chart_not_stored_cex :
    runTrace initState
        (questionTrace 0 "q" (SqlOutcome.success "SELECT 1" [["1"]])
          (VizOutcome.success (some "chartA"))) =
      runTrace initState
        (questionTrace 0 "q" (SqlOutcome.success "SELECT 1" [["1"]])
          (VizOutcome.success (some "chartB"))) ∧
    ("chartA" : Chart) ≠ "chartB" := by
  constructor
  · rfl
  · decide

/-- C3 (amended): after two consecutive questions each producing one table
and one chart, the dataframe store — the only artifact store in the app —
holds the two tables at indices 0 and 1; no chart artifact exists: the
final state does not depend on the chart payloads at all. -/
theorem two_questions_store_tables_only (q1 q2 sql1 sql2 : String)
    (t1 t2 : DataFrame) (c1 c2 d1 d2 : Chart) (h1 : sql1 ≠ "") (h2 : sql2 ≠ "") :
    (sessionRun initState
        [(q1, SqlOutcome.success sql1 t1, VizOutcome.success (some c1)),
         (q2, SqlOutcome.success sql2 t2, VizOutcome.success (some c2))]).1.dataframes =
      [t1, t2] ∧
    (sessionRun initState
        [(q1, SqlOutcome.success sql1 t1, VizOutcome.success (some c1)),
         (q2, SqlOutcome.success sql2 t2, VizOutcome.success (some c2))]).1 =
      (sessionRun initState
        [(q1, SqlOutcome.success sql1 t1, VizOutcome.success (some d1)),
         (q2, SqlOutcome.success sql2 t2, VizOutcome.success (some d2))]).1 := by
  constructor
  · simp [sessionRun, questionTrace, h1, h2, runTrace, applyAct, initState]
  · simp [sessionRun, questionTrace, h1, h2, runTrace, applyAct, initState]

/-- C3 (witness for `two_questions_store_tables_only`). -/
theorem two_questions_store_tables_only_w :
    (sessionRun initState
        [("a", SqlOutcome.success "S1" [["x"]], VizOutcome.success (some "f1")),
         ("b", SqlOutcome.success "S2" [["y"]], VizOutcome.success (some "f2"))]).1.dataframes =
      [[["x"]], [["y"]]] ∧
    (sessionRun initState
        [("a", SqlOutcome.success "S1" [["x"]], VizOutcome.success (some "f1")),
         ("b", SqlOutcome.success "S2" [["y"]], VizOutcome.success (some "f2"))]).1 =
      (sessionRun initState
        [("a", SqlOutcome.success "S1" [["x"]], VizOutcome.success (some "g1")),
         ("b", SqlOutcome.success "S2" [["y"]], VizOutcome.success (some "g2"))]).1 :=
  two_questions_store_tables_only "a" "b" "S1" "S2" [["x"]] [["y"]] "f1" "f2" "g1"
    "g2" (by decide) (by decide)

/-- C6: when the SQL step succeeds (non-empty SQL) and the visualization
step raises, the failure is surfaced only as a UI error banner
(`st.error`, line 262); the assistant turns appended remain exactly the SQL
text and the table reference, and the final transcript and store contain
the previously recorded turns and table unchanged. -/
theorem viz_failure_isolated (s : AppState) (q sql e : String) (df : DataFrame)
    (h : sql ≠ "") :
    Act.uiError ("Failed to create visualization: " ++ e) ∈
        questionTrace s.dataframes.length q (SqlOutcome.success sql df)
          (VizOutcome.failure e) ∧
      aiMessages
          (questionTrace s.dataframes.length q (SqlOutcome.success sql df)
            (VizOutcome.failure e)) =
        [sqlResultsText sql, dfRefContent s.dataframes.length] ∧
      (runTrace s
          (questionTrace s.dataframes.length q (SqlOutcome.success sql df)
            (VizOutcome.failure e))).messages =
        s.messages ++
          [⟨Role.human, q⟩, ⟨Role.ai, sqlResultsText sql⟩,
           ⟨Role.ai, dfRefContent s.dataframes.length⟩] ∧
      (runTrace s
          (questionTrace s.dataframes.length q (SqlOutcome.success sql df)
            (VizOutcome.failure e))).dataframes = s.dataframes ++ [df] := by
  refine ⟨?_, ?_, ?_, ?_⟩
  · simp [questionTrace, h]
  · simp [questionTrace, h, aiMessages]
  · simp [questionTrace, h, runTrace, applyAct]
  · simp [questionTrace, h, runTrace, applyAct]

/-- C6 (witness for `viz_failure_isolated`). -/
theorem viz_failure_isolated_w :
    Act.uiError ("Failed to create visualization: " ++ "no chart") ∈
        questionTrace 0 "q" (SqlOutcome.success "SELECT 1" [["1"]])
          (VizOutcome.failure "no chart") ∧
      aiMessages
          (questionTrace 0 "q" (SqlOutcome.success "SELECT 1" [["1"]])
            (VizOutcome.failure "no chart")) =
        [sqlResultsText "SELECT 1", dfRefContent 0] ∧
      (runTrace initState
          (questionTrace 0 "q" (SqlOutcome.success "SELECT 1" [["1"]])
            (VizOutcome.failure "no chart"))).messages =
        initState.messages ++
          [⟨Role.human, "q"⟩, ⟨Role.ai, sqlResultsText "SELECT 1"⟩,
           ⟨Role.ai, dfRefContent 0⟩] ∧
      (runTrace initState
          (questionTrace 0 "q" (SqlOutcome.success "SELECT 1" [["1"]])
            (VizOutcome.failure "no chart"))).dataframes =
        initState.dataframes ++ [[["1"]]] :=
  viz_failure_isolated initState "q" "SELECT 1" "no chart" [["1"]] (by decide)

/-- C7: over any sequence of questions in a session started from the
initial state, the table-store indices assigned (always
`len(st.session_state.dataframes)` at the moment of the append, line 227)
are exactly `0, 1, 2, ...` up to the final store size: a contiguous,
gap-free, repeat-free, monotone range starting at 0. -/
theorem table_indices_contiguous (qs : List (String × SqlOutcome × VizOutcome)) :
    storeIndices 0 (sessionRun initState qs).2 =
      List.range ((sessionRun initState qs).1.dataframes.length) := by
  rw [sessionRun_fst qs initState, runTrace_dataframes]
  have hinit : initState.dataframes = [] := rfl
  rw [hinit, List.nil_append, storeIndices_eq_range', List.range_eq_range']

/-- C8: for a question whose SQL step succeeds with a non-empty SQL string,
the SQL-text turn is appended at trace position 3 and the table-reference
turn at position 4 — strictly after it — and at the moment the reference
turn is appended (i.e. after the first four actions) the store already
holds the referenced index `k = s.dataframes.length`, because the dataframe
append (line 228) precedes the reference append (line 232). -/
theorem table_ref_after_text_and_store (s : AppState) (q sql : String)
    (df : DataFrame) (v : VizOutcome) (h : sql ≠ "") :
    (questionTrace s.dataframes.length q (SqlOutcome.success sql df) v)[3]? =
        some (Act.addAiMsg (sqlResultsText sql)) ∧
      (questionTrace s.dataframes.length q (SqlOutcome.success sql df) v)[4]? =
        some (Act.addAiMsg (dfRefContent s.dataframes.length)) ∧
      s.dataframes.length <
        (runTrace s
            ((questionTrace s.dataframes.length q
                (SqlOutcome.success sql df) v).take 4)).dataframes.length := by
  refine ⟨?_, ?_, ?_⟩
  · simp [questionTrace, h]
  · simp [questionTrace, h]
  · simp [questionTrace, h, runTrace, applyAct]

/-- C8 (witness for `table_ref_after_text_and_store`). -/
theorem table_ref_after_text_and_store_w :
    (questionTrace initState.dataframes.length "q"
          (SqlOutcome.success "SELECT 1" [["1"]]) (VizOutcome.success none))[3]? =
        some (Act.addAiMsg (sqlResultsText "SELECT 1")) ∧
      (questionTrace initState.dataframes.length "q"
          (SqlOutcome.success "SELECT 1" [["1"]]) (VizOutcome.success none))[4]? =
        some (Act.addAiMsg (dfRefContent initState.dataframes.length)) ∧
      initState.dataframes.length <
        (runTrace initState
            ((questionTrace initState.dataframes.length "q"
                (SqlOutcome.success "SELECT 1" [["1"]])
                (VizOutcome.success none)).take 4)).dataframes.length :=
  table_ref_after_text_and_store initState "q" "SELECT 1" [["1"]]
    (VizOutcome.success none) (by decide)

/-- When the marker occurs in the content, `renderTurn` is the dataframe
branch: parse `split(marker)[1]` as an integer, then index the store. -/
theorem renderTurn_marker (dfs : List DataFrame) (m : Msg)
    (hm : 2 ≤ (pySplit m.content dfMarker).length) :
    renderTurn dfs m =
      ((pyInt ((pySplit m.content dfMarker).getD 1 "")).bind (pyIndex dfs)).map
        (Rendered.shownDF m.role) := by
  simp only [renderTurn, if_pos hm]
  cases hpi : pyInt ((pySplit m.content dfMarker).getD 1 "") with
  | none => simp
  | some i => cases hpx : pyIndex dfs i <;> simp [hpx]

/-- If one message of the history raises during rendering, the whole render
aborts. -/
theorem display_none_of_mem (dfs : List DataFrame) :
    ∀ (msgs : List Msg) (m : Msg), m ∈ msgs → renderTurn dfs m = none →
      display_chat_history dfs msgs = none := by
  intro msgs
  induction msgs with
  | nil => intro m hm; cases hm
  | cons a rest ih =>
      intro m hm hr
      rcases List.mem_cons.mp hm with h1 | h2
      · subst h1
        simp [display_chat_history, hr]
      · cases ha : renderTurn dfs a with
        | none => simp [display_chat_history, ha]
        | some r => simp [display_chat_history, ha, ih m h2 hr]

/-- C9: any transcript turn whose content contains `DATAFRAME_INDEX:` —
whatever its role — is never displayed as text (lines 146-148 treat it as a
dataframe reference), and when the text after the marker is not a valid
in-range index (`int` raises or the list index is out of range) the whole
render fails. -/
theorem marker_turn_hijacks_rendering (dfs : List DataFrame) (msgs : List Msg)
    (m : Msg) (hm : m ∈ msgs)
    (hmark : 2 ≤ (pySplit m.content dfMarker).length) :
    (∀ ro txt, renderTurn dfs m ≠ some (Rendered.shownText ro txt)) ∧
      ((pyInt ((pySplit m.content dfMarker).getD 1 "")).bind (pyIndex dfs) =
          none →
        display_chat_history dfs msgs = none) := by
  constructor
  · intro ro txt hc
    rw [renderTurn_marker dfs m hmark] at hc
    cases hb : (pyInt ((pySplit m.content dfMarker).getD 1 "")).bind (pyIndex dfs) with
    | none => rw [hb] at hc; exact Option.noConfusion hc
    | some df => rw [hb] at hc; simp at hc
  · intro hnone
    refine display_none_of_mem dfs msgs m hm ?_
    rw [renderTurn_marker dfs m hmark, hnone]
    rfl

/-- C9 (witness for `marker_turn_hijacks_rendering`): a literal *user*
question containing the marker followed by non-integer text aborts the
render. -/
theorem marker_turn_hijacks_rendering_w :
    display_chat_history []
        [⟨Role.human, "what is DATAFRAME_INDEX:2 for"⟩] = none :=
  (marker_turn_hijacks_rendering [] [⟨Role.human, "what is DATAFRAME_INDEX:2 for"⟩]
      ⟨Role.human, "what is DATAFRAME_INDEX:2 for"⟩ (by decide) (by decide)).2
    (by decide)

/-- C10: when the SQL step succeeds (non-empty SQL) and the visualization
step returns without raising but `get_plotly_graph()` is falsy, the trace
is exactly the SQL-result actions plus the visualization invocation: no
chart display, no confirmation turn, no error banner (the `if plotly_graph:`
guard at line 251 silently skips everything). -/
theorem falsy_graph_silent (k : Nat) (q sql : String) (df : DataFrame)
    (h : sql ≠ "") :
    questionTrace k q (SqlOutcome.success sql df) (VizOutcome.success none) =
        [Act.uiChatHuman q, Act.addUserMsg q, Act.storeDF df,
         Act.addAiMsg (sqlResultsText sql), Act.addAiMsg (dfRefContent k),
         Act.uiChatAI (sqlResultsText sql), Act.uiDataframe df,
         Act.invokeViz] ∧
      (∀ g, Act.uiPlotly g ∉
        questionTrace k q (SqlOutcome.success sql df) (VizOutcome.success none)) ∧
      aiMessages
          (questionTrace k q (SqlOutcome.success sql df)
            (VizOutcome.success none)) =
        [sqlResultsText sql, dfRefContent k] ∧
      (∀ e2, Act.uiError e2 ∉
        questionTrace k q (SqlOutcome.success sql df) (VizOutcome.success none)) := by
  refine ⟨?_, ?_, ?_, ?_⟩
  · simp [questionTrace, h]
  · intro g
    simp [questionTrace, h]
  · simp [questionTrace, h, aiMessages]
  · intro e2
    simp [questionTrace, h]

/-- C10 (witness for `falsy_graph_silent`, with the confirmation text
checked absent at the concrete input). -/
theorem falsy_graph_silent_w :
    (questionTrace 0 "q" (SqlOutcome.success "SELECT 1" [["1"]])
          (VizOutcome.success none) =
        [Act.uiChatHuman "q", Act.addUserMsg "q", Act.storeDF [["1"]],
         Act.addAiMsg (sqlResultsText "SELECT 1"), Act.addAiMsg (dfRefContent 0),
         Act.uiChatAI (sqlResultsText "SELECT 1"), Act.uiDataframe [["1"]],
         Act.invokeViz] ∧
      (∀ g, Act.uiPlotly g ∉
        questionTrace 0 "q" (SqlOutcome.success "SELECT 1" [["1"]])
          (VizOutcome.success none)) ∧
      aiMessages
          (questionTrace 0 "q" (SqlOutcome.success "SELECT 1" [["1"]])
            (VizOutcome.success none)) =
        [sqlResultsText "SELECT 1", dfRefContent 0] ∧
      (∀ e2, Act.uiError e2 ∉
        questionTrace 0 "q" (SqlOutcome.success "SELECT 1" [["1"]])
          (VizOutcome.success none))) ∧
    vizResponse ∉
      aiMessages
        (questionTrace 0 "q" (SqlOutcome.success "SELECT 1" [["1"]])
          (VizOutcome.success none)) :=
  ⟨falsy_graph_silent 0 "q" "SELECT 1" [["1"]] (by decide), by decide⟩
